import Mathlib

/-!
Verification of the constella indexing pipeline and search surface.

This file gives a shallow embedding, in Lean, of the core data model and
operations of the repository (src/src-tauri/src), translated directly from
the Rust source, and proves or refutes the frozen specification claims
about them.  The main sources are:

- src/src-tauri/src/indexing/mod.rs      (the elaborated pipeline: scanner
  closure, document preparers, writer batch/retry loop, progress sampler,
  search and projection, format_size)
- src/src-tauri/src/indexing/new_mod.rs  (the simpler draft: index_file,
  which reads textual content)
- src/src-tauri/src/file_system/mod.rs   (the FileInfo record)

Machine integers (u64, usize) are modelled as Nat; the values involved
(file sizes, counters) never wrap in the source paths under study.
Fallible operations are modelled with Option and Except.  External library
behaviour (the tantivy query parser and collector) is modelled explicitly
where a claim depends on it, with the modelling noted at the definition.
-/

namespace Constella

/-! ## Constants (src/src-tauri/src/indexing/mod.rs lines 21-33) -/

def COMMIT_BATCH_SIZE : Nat := 100000
def SCAN_BATCH_SIZE : Nat := 500
def MAX_ERROR_RETRIES : Nat := 3
/-- ERROR_RETRY_DELAY in milliseconds (Duration::from_millis(100)). -/
def ERROR_RETRY_DELAY_MS : Nat := 100

/-! ## FileRecord (FileInfo, src/src-tauri/src/file_system/mod.rs lines 22-32)

    SystemTime values are modelled as seconds since the Unix epoch; a
    SystemTime before the epoch makes duration_since(UNIX_EPOCH) fail in
    prepare_document, which is the same observable behaviour as an absent
    timestamp, so both are folded into none. -/

structure FileInfo where
  path : String
  name : String
  size : Nat
  modified : Option Nat
  created : Option Nat
  is_dir : Bool
  mime_type : Option String
  content : Option String
deriving DecidableEq, Repr

/-! ## Documents

    A tantivy Document is an ordered bag of (field, value) pairs; add_text
    appends one pair.  All fields of the schema built in
    IndexManager::new (mod.rs lines 107-119) are text fields, so every
    value is a string and the as_text conversions in search always
    succeed. -/

inductive Field
  | path
  | name
  | content
  | size
  | modified
  | created
  | mime_type
  | extension
deriving DecidableEq, Repr

abbrev Document := List (Field × String)

/-- add_text on a tantivy Document appends a (field, value) pair. -/
def addText (d : Document) (f : Field) (v : String) : Document :=
  d ++ [(f, v)]

/-- get_first returns the value of the first occurrence of a field. -/
def getFirst (d : Document) (f : Field) : Option String :=
  (d.find? (fun p => decide (p.1 = f))).map Prod.snd

/-- hasField tells whether a document carries at least one value for a field. -/
def hasField (d : Document) (f : Field) : Bool :=
  d.any (fun p => decide (p.1 = f))

/-! ## Document preparation (IndexManager::prepare_document_batch,
    src/src-tauri/src/indexing/mod.rs lines 202-223)

    Per record: add path, name and size (decimal string) unconditionally;
    add mime_type only when the record has an inferred mime type; add
    modified only when the record has a readable post-epoch timestamp.
    No other field is ever added: in particular neither content nor
    extension is populated.  prepare_document (lines 181-200) performs the
    identical field additions. -/

def prepare_document (fi : FileInfo) : Document :=
  let d : Document := []
  let d := addText d Field.path fi.path
  let d := addText d Field.name fi.name
  let d := addText d Field.size (toString fi.size)
  let d := match fi.mime_type with
    | some m => addText d Field.mime_type m
    | none => d
  match fi.modified with
    | some t => addText d Field.modified (toString t)
    | none => d

def prepare_document_batch (fis : List FileInfo) : List Document :=
  fis.map prepare_document

/-! ## The content-reading draft (IndexManager::index_file,
    src/src-tauri/src/indexing/new_mod.rs lines 220-252)

    The draft schema has only path and content fields.  The path is always
    added; content is added exactly when the record is not a directory,
    its inferred mime type starts with "text/", and
    tokio::fs::read_to_string succeeds.  read_to_string is modelled by the
    parameter readToString: some of the decoded text on success, none on
    an I/O error or when the bytes are not valid UTF-8.  No size bound of
    any kind appears in the source. -/

/-- strStartsWith models Rust str::starts_with character-wise (the builtin
String.startsWith is implemented over byte positions and does not reduce
inside the kernel). -/
def strStartsWith (m p : String) : Bool :=
  p.toList.isPrefixOf m.toList

def index_file (readToString : String → Option String) (fi : FileInfo) : Document :=
  let d := addText [] Field.path fi.path
  if !fi.is_dir then
    match fi.mime_type with
    | some m =>
      if strStartsWith m ("text/") then
        match readToString fi.path with
        | some c => addText d Field.content c
        | none => d
      else d
    | none => d
  else d

/-! ## Scanner (start_indexing scanner thread closure,
    src/src-tauri/src/indexing/mod.rs lines 429-534)

    The walker is built with threads(MAX_CONCURRENT_SCANNERS = 1), so one
    worker closure visits the entries in sequence.  Per entry: a walker
    error is skipped; fs::metadata is read, and on failure the entry is
    skipped; directories are skipped; otherwise total_count is
    incremented, a FileInfo is built and pushed onto the worker-local
    batch, and when the local batch reaches SCAN_BATCH_SIZE it is sent
    downstream and cleared (sends are modelled as accepted: backoff on a
    full channel only delays them).

    After walker.run returns, the source flushes the vector named batch
    declared at line 436 - which is created empty before walker.run and is
    never appended to (the worker closures push onto their own
    local_batch) - so the final flush at lines 525-530 sends nothing and
    each worker-local partial batch is dropped with its closure. -/

structure ScanMeta where
  is_dir : Bool
  size : Nat
  modified : Option Nat
  created : Option Nat
deriving DecidableEq, Repr

/-- ScanEntry is one walker entry: its path and name components, the
result of fs::metadata (none on error), and the mime type inferred from
the extension. -/
structure ScanEntry where
  path : String
  name : String
  meta : Option ScanMeta
  mime : Option String
deriving DecidableEq, Repr

structure ScanState where
  local_batch : List FileInfo
  sent : List (List FileInfo)
  total : Nat
deriving DecidableEq, Repr

/-- toFileInfo builds the FileInfo pushed by the scanner closure
(mod.rs lines 469-480): is_dir is false by construction and content is
none. -/
def toFileInfo (e : ScanEntry) (m : ScanMeta) : FileInfo :=
  { path := e.path, name := e.name, size := m.size,
    modified := m.modified, created := m.created, is_dir := false,
    mime_type := e.mime, content := none }

/-- scan_visit is the body of the walker worker closure for one entry; a
none entry models an Err walker entry (skipped at mod.rs line 460). -/
def scan_visit (st : ScanState) (ent : Option ScanEntry) : ScanState :=
  match ent with
  | none => st
  | some e =>
    match e.meta with
    | none => st
    | some m =>
      if m.is_dir then st
      else
        let st' : ScanState :=
          { st with total := st.total + 1,
                    local_batch := st.local_batch ++ [toFileInfo e m] }
        if SCAN_BATCH_SIZE ≤ st'.local_batch.length then
          { st' with sent := st'.sent ++ [st'.local_batch], local_batch := [] }
        else st'

def scan_run (entries : List (Option ScanEntry)) : ScanState :=
  entries.foldl scan_visit { local_batch := [], sent := [], total := 0 }

/-- scan_emitted is the full sequence of records the scanner hands to the
preparer channel: the batches sent during the walk, followed by the final
flush of the outer vector from mod.rs line 436, which is empty because the
workers only ever fill their own local_batch. -/
def scan_emitted (entries : List (Option ScanEntry)) : List FileInfo :=
  let st := scan_run entries
  let outer_batch : List FileInfo := []
  (if outer_batch.isEmpty then st.sent else st.sent ++ [outer_batch]).flatten

/-! ## Pipeline counters and progress snapshots
    (start_indexing, src/src-tauri/src/indexing/mod.rs lines 235-324 and
    633-643)

    total_count is incremented once per regular file the scanner visits
    (line 466); processed_count is incremented by the preparers by the
    length of each sub-chunk of a received batch (line 553); records can
    be lost between the two (partial batches dropped at the end of the
    walk, preparer send failures).  The three counters are modelled as a
    state acted on by abstract interleaved steps; a process step can only
    consume records that were discovered and are still pending, which the
    model enforces by clamping (the channel cannot deliver records that
    were never sent). -/

inductive PStep
  | discover
  | dropPending (k : Nat)
  | process (k : Nat)
deriving DecidableEq, Repr

structure Counters where
  total : Nat
  pending : Nat
  processed : Nat
deriving DecidableEq, Repr

def pstep : Counters → PStep → Counters
  | c, PStep.discover =>
      { c with total := c.total + 1, pending := c.pending + 1 }
  | c, PStep.dropPending k =>
      { c with pending := c.pending - k }
  | c, PStep.process k =>
      let j := min k c.pending
      { c with processed := c.processed + j, pending := c.pending - j }

def runPipeline (tr : List PStep) : Counters :=
  tr.foldl pstep { total := 0, pending := 0, processed := 0 }

/-- ProgressSnapshot models the IndexingState records handed to the
progress callback (mod.rs lines 54-64); only the fields the claims are
about are kept. -/
structure ProgressSnapshot where
  total_files : Nat
  processed_files : Nat
  phase : String
  is_complete : Bool
deriving DecidableEq, Repr

/-- sampleSnapshot is the snapshot built by the sampler task (mod.rs
lines 307-317): total_files and files_found are the sampled total, and
processed_files is the sampled processed count only while the phase is
Processing, otherwise 0. -/
def sampleSnapshot (c : Counters) (phase : String) : ProgressSnapshot :=
  { total_files := c.total,
    processed_files := if phase = "Processing" then c.processed else 0,
    phase := phase, is_complete := false }

/-- finalSnapshot is the final progress update (mod.rs lines 633-643):
both total_files and processed_files are set to the processed count. -/
def finalSnapshot (c : Counters) : ProgressSnapshot :=
  { total_files := c.processed, processed_files := c.processed,
    phase := "Complete", is_complete := true }

/-! ## Writer batch loop (start_indexing writer task,
    src/src-tauri/src/indexing/mod.rs lines 332-394)

    Once current_batch reaches COMMIT_BATCH_SIZE the writer enters the
    retry loop: while not successful and retry_count < MAX_ERROR_RETRIES,
    it drains current_batch appending each document to the tantivy writer;
    on the first failing append it increments the error counter and breaks
    (dropping the drained remainder - Vec::drain removes every element of
    the range when the iterator is dropped, so the batch vector is empty
    on the next iteration); if no append failed it commits, on commit
    success setting retry_count to 0, on failure incrementing retry_count
    and the error counter and sleeping ERROR_RETRY_DELAY; an attempt that
    failed by append likewise increments retry_count and the error counter
    and sleeps.  When the loop ends without success the stop flag is set.

    The oracle appendOk says whether add_document succeeds for a given
    document; commitOk says whether the commit of attempt i succeeds.
    Documents appended before a failure stay in the tantivy writer buffer
    (WriterSt.appended) and are published by the next successful commit;
    delays records the argument of each sleep call, in milliseconds. -/

structure WriterSt where
  appended : List Document
  committed : List Document
  errorCount : Nat
  retryCount : Nat
  shouldStop : Bool
  delays : List Nat
deriving DecidableEq, Repr

/-- append_phase is the drain-and-append loop (mod.rs lines 351-362):
returns the has_error flag and the updated writer state.  On the first
failing document the error counter is incremented and the rest of the
batch is dropped. -/
def append_phase (appendOk : Document → Bool) :
    List Document → WriterSt → Bool × WriterSt
  | [], st => (false, st)
  | d :: ds, st =>
    if appendOk d then
      append_phase appendOk ds { st with appended := st.appended ++ [d] }
    else
      (true, { st with errorCount := st.errorCount + 1 })

/-- write_batch_aux is one pass of the retry loop with the remaining
allowed attempts as fuel; the loop guard retry_count < MAX_ERROR_RETRIES
makes fuel = MAX_ERROR_RETRIES - retry_count.  Fuel 0 is loop exit
without success: the stop flag is set (mod.rs lines 388-392). -/
def write_batch_aux (appendOk : Document → Bool) (commitOk : Nat → Bool) :
    Nat → Nat → List Document → WriterSt → WriterSt
  | 0, _, _, st => { st with shouldStop := true }
  | fuel + 1, attempt, batch, st =>
    let res := append_phase appendOk batch st
    if res.1 then
      write_batch_aux appendOk commitOk fuel (attempt + 1) []
        { res.2 with retryCount := res.2.retryCount + 1,
                     errorCount := res.2.errorCount + 1,
                     delays := res.2.delays ++ [ERROR_RETRY_DELAY_MS] }
    else
      if commitOk attempt then
        { res.2 with committed := res.2.committed ++ res.2.appended,
                     appended := [], retryCount := 0 }
      else
        write_batch_aux appendOk commitOk fuel (attempt + 1) []
          { res.2 with retryCount := res.2.retryCount + 1,
                       errorCount := res.2.errorCount + 1,
                       delays := res.2.delays ++ [ERROR_RETRY_DELAY_MS] }

def write_batch (appendOk : Document → Bool) (commitOk : Nat → Bool)
    (batch : List Document) (st : WriterSt) : WriterSt :=
  write_batch_aux appendOk commitOk (MAX_ERROR_RETRIES - st.retryCount) 0 batch st

/-! ## Search (IndexManager::search and format_size,
    src/src-tauri/src/indexing/mod.rs lines 735-833)

    The committed index is modelled as the list of stored documents in the
    index's intrinsic document order.  The evaluation of the parsed query
    by the tantivy searcher is modelled by a scorer oracle giving each
    document its relevance score, or none when the document does not match
    (scores are abstract relevance values).  TopDocs::with_limit(100)
    collects the matching documents ordered by descending score with ties
    broken by the intrinsic document order, then keeps the first 100;
    reader acquisition is modelled as succeeding.

    The query parser is tantivy's QueryParser; only its acceptance is
    modelled, from the spec: a query with unbalanced double quotes (such
    as one containing a single quote character) is rejected, surfacing as
    the BadQuery error ("Failed to parse query: ..."). -/

/-- SearchDoc as serialized back to the caller (mod.rs lines 35-45); the
matches field is always None in the source and is omitted here. -/
structure SearchDoc where
  path : String
  name : String
  size : Nat
  size_formatted : String
  modified_formatted : String
  mime_type : String
  is_dir : Bool
deriving DecidableEq, Repr

/-- SearchError mirrors the error strings produced by search: badQuery is
the string built by format at mod.rs line 761 ("Failed to parse query:
..."), missingPath and missingName are the strings of lines 778 and 784
("Document missing path field" / "Document missing name field"). -/
inductive SearchError
  | badQuery
  | missingPath
  | missingName
deriving DecidableEq, Repr

/-- digitsToNat folds decimal digit characters into a number; the
accumulator is none until the first digit, so the empty string yields
none; any non-digit character yields none. -/
def digitsToNat : List Char → Option Nat → Option Nat
  | [], acc => acc
  | c :: cs, acc =>
    if 48 ≤ c.toNat ∧ c.toNat ≤ 57 then
      match acc with
      | some n => digitsToNat cs (some (n * 10 + (c.toNat - 48)))
      | none => digitsToNat cs (some (c.toNat - 48))
    else none

/-- parseU64 models str::parse::(u64): a non-empty all-digit string whose
value fits in 64 bits, anything else is a parse error (the model ignores
an optional leading plus sign, which no stored size string carries since
all are produced by u64::to_string). -/
def parseU64 (s : String) : Option Nat :=
  match digitsToNat s.toList none with
  | some n => if n < 18446744073709551616 then some n else none
  | none => none

/-- twoDec renders num / den with two decimal digits, as format with a
.2 precision does for the f64 quotient (mod.rs lines 822-830).  The exact
rational is rounded to the nearest hundredth, half away from zero; the
double rounding that the f64 division inserts can differ from this only
in the last printed digit for quotients whose binary representation
straddles a decimal tie, which no claim depends on. -/
def twoDec (num den : Nat) : String :=
  let h := (num * 100 + den / 2) / den
  toString (h / 100) ++ "." ++ String.mk [Nat.digitChar (h / 10 % 10), Nat.digitChar (h % 10)]

/-- format_size (mod.rs lines 816-833): binary thresholds, units B, KB,
MB, GB, TB, two decimal digits above the byte range. -/
def format_size (size : Nat) : String :=
  let KB : Nat := 1024
  let MB : Nat := KB * 1024
  let GB : Nat := MB * 1024
  let TB : Nat := GB * 1024
  if TB ≤ size then twoDec size TB ++ " TB"
  else if GB ≤ size then twoDec size GB ++ " GB"
  else if MB ≤ size then twoDec size MB ++ " MB"
  else if KB ≤ size then twoDec size KB ++ " KB"
  else toString size ++ " B"

/-- projectHit is the per-hit stored-field projection (mod.rs lines
770-811): a missing path or name field aborts the whole search with an
error; a missing or unparsable size projects as 0; a missing mime type
projects as the empty string; modified_formatted is always the "Unknown"
placeholder; is_dir is the emptiness of the projected mime type. -/
def projectHit (d : Document) : Except SearchError SearchDoc :=
  match getFirst d Field.path with
  | none => Except.error SearchError.missingPath
  | some path =>
    match getFirst d Field.name with
    | none => Except.error SearchError.missingName
    | some name =>
      let size := (((getFirst d Field.size).bind parseU64)).getD 0
      let mime := (getFirst d Field.mime_type).getD ""
      Except.ok
        { path := path, name := name, size := size,
          size_formatted := format_size size,
          modified_formatted := "Unknown",
          mime_type := mime, is_dir := mime.isEmpty }

/-- Scored is one matching document: its score, its position in the
index's intrinsic document order, and the stored document. -/
structure Scored where
  score : Nat
  idx : Nat
  doc : Document
deriving DecidableEq, Repr

/-- scoredFrom pairs each matching document with its score and its
intrinsic position, in index order. -/
def scoredFrom (scorer : Document → Option Nat) : Nat → List Document → List Scored
  | _, [] => []
  | i, d :: ds =>
    match scorer d with
    | some s => { score := s, idx := i, doc := d } :: scoredFrom scorer (i + 1) ds
    | none => scoredFrom scorer (i + 1) ds

/-- insertScored places a hit before the first strictly lower score;
equal scores keep their earlier position, so the index order breaks
ties.  This is the ordering contract of the TopDocs collector. -/
def insertScored (x : Scored) : List Scored → List Scored
  | [] => [x]
  | y :: ys => if y.score < x.score then x :: y :: ys else y :: insertScored x ys

def sortByScore (l : List Scored) : List Scored :=
  l.foldl (fun acc x => insertScored x acc) []

/-- rankedHits is the TopDocs result: matching documents by descending
score, ties by intrinsic order, truncated to the limit of 100. -/
def rankedHits (scorer : Document → Option Nat) (docs : List Document) : List Scored :=
  (sortByScore (scoredFrom scorer 0 docs)).take 100

/-- mapExcept models the result-building for loop with the question-mark
operator: push each projection onto the result vector, aborting the whole
call on the first error. -/
def mapExcept {α β ε : Type} (f : α → Except ε β) : List α → Except ε (List β)
  | [] => Except.ok []
  | a :: l =>
    match f a with
    | Except.error e => Except.error e
    | Except.ok b =>
      match mapExcept f l with
      | Except.error e => Except.error e
      | Except.ok bs => Except.ok (b :: bs)

/-- search_exec is the result-building loop of search (mod.rs lines
763-813): project every collected hit, aborting on the first projection
error. -/
def search_exec (scorer : Document → Option Nat) (docs : List Document) :
    Except SearchError (List SearchDoc) :=
  mapExcept (fun s => projectHit s.doc) (rankedHits scorer docs)

/-- IndexState is the committed index visible to a reader. -/
structure IndexState where
  docs : List Document
deriving DecidableEq, Repr

/-- quotesBalanced models (from the spec) the tantivy QueryParser
acceptance condition the claims exercise: a query whose double quotes do
not pair up is rejected. -/
def quotesBalanced (q : String) : Bool :=
  (q.toList.count (Char.ofNat 34)) % 2 == 0

/-- search takes the index state and the query and returns the result
together with the index state after the call; search only ever opens a
reader, so the state passes through unchanged on every path (mod.rs lines
735-814 contain no writer access). -/
def search (scorer : Document → Option Nat) (st : IndexState) (q : String) :
    Except SearchError (List SearchDoc) × IndexState :=
  if quotesBalanced q then
    (search_exec scorer st.docs, st)
  else
    (Except.error SearchError.badQuery, st)

/-- hitOrder is the strict ordering the collector guarantees on the
result sequence: descending score, ties by ascending intrinsic document
order. -/
def hitOrder (a b : Scored) : Prop :=
  b.score < a.score ∨ (a.score = b.score ∧ a.idx < b.idx)

/-! ## Concrete records used by counterexamples and witnesses -/

/-- Concrete textual record of exactly 10,000,000 bytes. -/
def fiTenMB : FileInfo :=
  { path := "/tmp/a.txt", name := "a.txt", size := 10000000,
    modified := none, created := none, is_dir := false,
    mime_type := some ("text/plain"), content := none }

/-- Concrete textual record of 10,000,001 bytes. -/
def fiTenMBplus : FileInfo :=
  { path := "/tmp/b.txt", name := "b.txt", size := 10000001,
    modified := none, created := none, is_dir := false,
    mime_type := some ("text/plain"), content := none }

/-- Concrete record with no inferrable mime type (no extension). -/
def fiNoMime : FileInfo :=
  { path := "/tmp/README", name := "README", size := 42,
    modified := none, created := none, is_dir := false,
    mime_type := none, content := none }

/-! # Theorems for the claims -/

/-! ## Claim C2: content field presence -/



/-- C2 counterexample: the claim is false at concrete inputs.  A textual
file of exactly 10,000,000 bytes prepared by the pipeline preparer
(prepare_document_batch) yields a Document with no content field, and the
content-reading draft (index_file) stores content for a textual file of
10,000,001 bytes whose bytes decode as UTF-8.  Both contradict the claimed
10 MB threshold, which appears nowhere in the source. -/
theorem c2_counterexample :
    hasField (prepare_document fiTenMB) Field.content = false
    ∧ hasField (index_file (fun _ => some ("hello")) fiTenMBplus) Field.content = true := by
  constructor <;> rfl

/-- C2 amended: the pipeline preparer never populates the content field at
all, and the content-reading draft index_file stores content exactly when
the record is not a directory, its inferred mime type starts with "text/",
and reading the file as UTF-8 succeeds; the file size plays no role. -/
theorem c2_content_field (rts : String → Option String) (fi : FileInfo) :
    hasField (prepare_document fi) Field.content = false
    ∧ (hasField (index_file rts fi) Field.content = true
        ↔ fi.is_dir = false
          ∧ ∃ m, fi.mime_type = some m ∧ strStartsWith m ("text/") = true
          ∧ ∃ c, rts fi.path = some c) := by
  constructor
  · unfold prepare_document addText hasField
    rcases fi.mime_type with _ | m <;> rcases fi.modified with _ | t <;> simp
  · unfold index_file addText hasField
    rcases hd : fi.is_dir with _ | _
    · rcases hm : fi.mime_type with _ | m
      · simp
      · rcases hs : strStartsWith m ("text/") with _ | _
        · simp [hs]
        · rcases hr : rts fi.path with _ | c
          · simp [hs, hr]
          · simp [hs, hr]
    · simp

/-- C2 witness: the amended characterization applied at a concrete record
whose mime type is textual and whose read succeeds. -/
theorem c2_witness :
    hasField (index_file (fun _ => some ("hello")) fiTenMBplus) Field.content = true :=
  (c2_content_field (fun _ => some ("hello")) fiTenMBplus).2.mpr
    ⟨rfl, "text/plain", rfl, rfl, "hello", rfl⟩

/-! ## Claim C7: required fields of a prepared Document -/


/-- C7 counterexample: the prepared Document for a record without an
inferred mime type lacks both the mime_type field and the extension field
(the extension field is in fact never populated by the preparer), so not
every prepared Document contains all five claimed fields. -/
theorem c7_counterexample :
    hasField (prepare_document fiNoMime) Field.extension = false
    ∧ hasField (prepare_document fiNoMime) Field.mime_type = false := by
  constructor <;> rfl

/-- C7 amended: every prepared Document contains path, name and size (the
decimal rendering of the record size); the mime_type field is present
exactly when the record carries an inferred mime type; the extension field
is never populated. -/
theorem c7_prepared_fields (fi : FileInfo) :
    hasField (prepare_document fi) Field.path = true
    ∧ hasField (prepare_document fi) Field.name = true
    ∧ hasField (prepare_document fi) Field.size = true
    ∧ getFirst (prepare_document fi) Field.size = some (toString fi.size)
    ∧ hasField (prepare_document fi) Field.mime_type = fi.mime_type.isSome
    ∧ hasField (prepare_document fi) Field.extension = false := by
  unfold prepare_document addText hasField getFirst
  rcases fi.mime_type with _ | m <;> rcases fi.modified with _ | t <;>
    simp [List.find?]

/-! ## Claim C1: scanner emission and final flush -/

/-- Concrete walker entry for a single readable regular file. -/
def entOne : ScanEntry :=
  { path := "/root/only.txt", name := "only.txt",
    meta := some { is_dir := false, size := 7, modified := none, created := none },
    mime := some ("text/plain") }

/-- C1 failing input: a root containing a single readable regular file
(any count below SCAN_BATCH_SIZE = 500 behaves the same).  The scanner
counts the file in total_count, but the record stays in the worker-local
batch, and the final flush (mod.rs lines 525-530) sends the outer vector
declared at line 436, which is always empty; so nothing is ever emitted to
the preparer channel, contradicting both the exactly-once guarantee and
the partial-batch flush the spec states. -/
theorem c1_partial_batch_dropped :
    (scan_run [some entOne]).total = 1
    ∧ (scan_run [some entOne]).local_batch = [toFileInfo entOne
        { is_dir := false, size := 7, modified := none, created := none }]
    ∧ scan_emitted [some entOne] = [] := by
  refine ⟨rfl, rfl, rfl⟩

/-! ## Claim C4: progress snapshot invariants -/

/-- pipelineInv is the linking invariant of the three counters: every
pending or processed record was first discovered. -/
def pipelineInv (c : Counters) : Prop :=
  c.processed + c.pending ≤ c.total

theorem pstep_inv {c : Counters} (h : pipelineInv c) (s : PStep) :
    pipelineInv (pstep c s) := by
  rcases s with _ | k | k <;> unfold pipelineInv at h ⊢ <;> (simp [pstep]; omega)

theorem runPipeline_aux_inv (tr : List PStep) (c : Counters)
    (h : pipelineInv c) : pipelineInv (tr.foldl pstep c) := by
  induction tr generalizing c with
  | nil => exact h
  | cons s tr ih => exact ih _ (pstep_inv h s)

theorem runPipeline_inv (tr : List PStep) : pipelineInv (runPipeline tr) :=
  runPipeline_aux_inv tr _ (by simp [pipelineInv])

theorem pstep_total_mono (c : Counters) (s : PStep) :
    c.total ≤ (pstep c s).total := by
  rcases s with _ | k | k <;> simp [pstep]

theorem foldl_total_mono (ext : List PStep) (c : Counters) :
    c.total ≤ (ext.foldl pstep c).total := by
  induction ext generalizing c with
  | nil => exact le_refl _
  | cons s ext ih => exact le_trans (pstep_total_mono c s) (ih _)

/-- C4: for every snapshot the sampler can build - the processed counter
read at one instant, the total counter read at the same or any later
instant of the interleaving, any phase string - processed_files is at most
total_files; the sampled total_files is monotonically non-decreasing
across later snapshots of the same session; and the final Complete
snapshot also satisfies processed_files at most total_files.  Instants are
prefixes of the interleaved counter-step trace. -/
theorem c4_progress_invariants (tr ext : List PStep) (ph ph2 : String) :
    (sampleSnapshot (runPipeline tr) ph).processed_files
      ≤ (sampleSnapshot (runPipeline (tr ++ ext)) ph).total_files
    ∧ (sampleSnapshot (runPipeline tr) ph).total_files
      ≤ (sampleSnapshot (runPipeline (tr ++ ext)) ph2).total_files
    ∧ (finalSnapshot (runPipeline tr)).processed_files
      ≤ (finalSnapshot (runPipeline tr)).total_files := by
  have hinv := runPipeline_inv tr
  have hmono : (runPipeline tr).total ≤ (runPipeline (tr ++ ext)).total := by
    unfold runPipeline
    rw [List.foldl_append]
    exact foldl_total_mono ext _
  unfold pipelineInv at hinv
  refine ⟨?_, ?_, ?_⟩
  · by_cases hph : ph = "Processing"
    · simp [sampleSnapshot, hph]
      omega
    · simp [sampleSnapshot, hph]
  · simp [sampleSnapshot]
    exact hmono
  · simp [finalSnapshot]

/-! ## Claim C3: writer batch retry semantics -/

/-- Concrete documents for the writer counterexample. -/
def wd1 : Document := [(Field.path, "/w/1")]

def wd2 : Document := [(Field.path, "/w/2")]

def wd3 : Document := [(Field.path, "/w/3")]

def wst0 : WriterSt :=
  { appended := [], committed := [], errorCount := 0, retryCount := 0,
    shouldStop := false, delays := [] }

/-- C3 counterexample: take a batch of three documents whose second append
fails while every commit succeeds.  The retry loop runs again, but the
batch vector was drained by the failed attempt, so the retry appends
nothing: only the first document is ever committed, the second and third
are silently lost, and the session continues (no stop flag).  The whole
batch is not retried, contradicting the claim. -/
theorem c3_counterexample :
    (write_batch (fun d => decide (d ≠ wd2)) (fun _ => true) [wd1, wd2, wd3] wst0).committed
        = [wd1]
    ∧ (write_batch (fun d => decide (d ≠ wd2)) (fun _ => true) [wd1, wd2, wd3] wst0).appended
        = []
    ∧ (write_batch (fun d => decide (d ≠ wd2)) (fun _ => true) [wd1, wd2, wd3] wst0).shouldStop
        = false
    ∧ [wd1] ≠ [wd1, wd2, wd3] := by
  refine ⟨rfl, rfl, rfl, by decide⟩

theorem append_phase_fst (a : Document → Bool) (batch : List Document)
    (st : WriterSt) : (append_phase a batch st).1 = !batch.all a := by
  induction batch generalizing st with
  | nil => rfl
  | cons d ds ih =>
    by_cases h : a d = true
    · simp [append_phase, h, ih]
    · simp at h
      simp [append_phase, h]

theorem append_phase_snd (a : Document → Bool) (batch : List Document)
    (st : WriterSt) :
    (append_phase a batch st).2 =
      { st with appended := st.appended ++ batch.takeWhile a,
                errorCount := st.errorCount + (if batch.all a then 0 else 1) } := by
  induction batch generalizing st with
  | nil => cases st; simp [append_phase]
  | cons d ds ih =>
    by_cases h : a d = true
    · cases st
      simp [append_phase, h, ih]
    · simp at h
      cases st
      simp [append_phase, h]

theorem write_batch_aux_three (a : Document → Bool) (c : Nat → Bool)
    (batch : List Document) (st : WriterSt) :
    write_batch_aux a c 3 0 batch st =
      (if (append_phase a batch st).1 then
        write_batch_aux a c 2 1 []
          { (append_phase a batch st).2 with
              retryCount := (append_phase a batch st).2.retryCount + 1,
              errorCount := (append_phase a batch st).2.errorCount + 1,
              delays := (append_phase a batch st).2.delays ++ [ERROR_RETRY_DELAY_MS] }
      else if c 0 then
        { (append_phase a batch st).2 with
            committed := (append_phase a batch st).2.committed
              ++ (append_phase a batch st).2.appended,
            appended := [], retryCount := 0 }
      else
        write_batch_aux a c 2 1 []
          { (append_phase a batch st).2 with
              retryCount := (append_phase a batch st).2.retryCount + 1,
              errorCount := (append_phase a batch st).2.errorCount + 1,
              delays := (append_phase a batch st).2.delays ++ [ERROR_RETRY_DELAY_MS] }) := rfl

theorem write_batch_aux_two (a : Document → Bool) (c : Nat → Bool)
    (st : WriterSt) :
    write_batch_aux a c 2 1 [] st =
      (if c 1 then
        { st with committed := st.committed ++ st.appended,
                  appended := [], retryCount := 0 }
      else
        write_batch_aux a c 1 2 []
          { st with retryCount := st.retryCount + 1,
                    errorCount := st.errorCount + 1,
                    delays := st.delays ++ [ERROR_RETRY_DELAY_MS] }) := rfl

theorem write_batch_aux_one (a : Document → Bool) (c : Nat → Bool)
    (st : WriterSt) :
    write_batch_aux a c 1 2 [] st =
      (if c 2 then
        { st with committed := st.committed ++ st.appended,
                  appended := [], retryCount := 0 }
      else
        { st with retryCount := st.retryCount + 1,
                  errorCount := st.errorCount + 1,
                  delays := st.delays ++ [ERROR_RETRY_DELAY_MS],
                  shouldStop := true }) := rfl

/-- C3 amended: in a writer batch in which some document append fails, the
error counter is incremented (twice: once at the failing append, once at
the end of the attempt), the failing document and the drained remainder of
the batch are discarded rather than retried, and the retry loop re-runs
with an empty batch vector, effectively retrying only the commit of the
documents appended before the failure; each failed attempt sleeps
ERROR_RETRY_DELAY (100 ms), at most MAX_ERROR_RETRIES (3) attempts run, a
successful commit resets the retry counter to zero and publishes exactly
the writer buffer plus the prefix of the batch before the first failing
append, and after three consecutive failed attempts the stop flag is set
with nothing newly committed. -/
theorem c3_writer_retry (appendOk : Document → Bool) (commitOk : Nat → Bool)
    (batch : List Document) (st : WriterSt)
    (h0 : st.retryCount = 0) (h1 : st.shouldStop = false) :
    ((write_batch appendOk commitOk batch st).shouldStop = false →
        (write_batch appendOk commitOk batch st).committed
          = st.committed ++ st.appended ++ batch.takeWhile appendOk
        ∧ (write_batch appendOk commitOk batch st).retryCount = 0)
    ∧ ((write_batch appendOk commitOk batch st).shouldStop = true →
        (write_batch appendOk commitOk batch st).committed = st.committed)
    ∧ ((write_batch appendOk commitOk batch st).shouldStop = true
        ↔ (batch.all appendOk = false ∨ commitOk 0 = false)
          ∧ commitOk 1 = false ∧ commitOk 2 = false)
    ∧ (batch.all appendOk = false →
        st.errorCount + 2 ≤ (write_batch appendOk commitOk batch st).errorCount)
    ∧ (∃ k, k ≤ MAX_ERROR_RETRIES
        ∧ (write_batch appendOk commitOk batch st).delays
            = st.delays ++ List.replicate k ERROR_RETRY_DELAY_MS) := by
  have e3 : MAX_ERROR_RETRIES - st.retryCount = 3 := by
    simp [h0, MAX_ERROR_RETRIES]
  rw [write_batch, e3, write_batch_aux_three, append_phase_fst, append_phase_snd]
  by_cases hA : batch.all appendOk = true
  · by_cases hc0 : commitOk 0 = true
    · simp [hA, hc0, h1]
    · simp at hc0
      by_cases hc1 : commitOk 1 = true
      · simp [hA, hc0, hc1, write_batch_aux_two, h1]
        exact ⟨1, by decide, rfl⟩
      · simp at hc1
        by_cases hc2 : commitOk 2 = true
        · simp [hA, hc0, hc1, hc2, write_batch_aux_two, write_batch_aux_one, h1]
          exact ⟨2, by decide, rfl⟩
        · simp at hc2
          simp [hA, hc0, hc1, hc2, write_batch_aux_two, write_batch_aux_one, h1]
          exact ⟨3, by decide, rfl⟩
  · simp at hA
    have hall : ¬ ∀ x ∈ batch, appendOk x = true := by
      intro hall
      obtain ⟨x, hx, hfx⟩ := hA
      simp [hall x hx] at hfx
    by_cases hc1 : commitOk 1 = true
    · simp [hA, hall, hc1, write_batch_aux_two, h1]
      exact ⟨1, by decide, rfl⟩
    · simp at hc1
      by_cases hc2 : commitOk 2 = true
      · simp [hA, hall, hc1, hc2, write_batch_aux_two, write_batch_aux_one, h1]
        exact ⟨2, by decide, rfl⟩
      · simp at hc2
        simp [hA, hall, hc1, hc2, write_batch_aux_two, write_batch_aux_one, h1]
        exact ⟨3, by decide, rfl⟩

/-- C3 witness: the amended theorem applied to the concrete failing batch
of the counterexample scenario. -/
theorem c3_witness :
    (write_batch (fun d => decide (d ≠ wd2)) (fun _ => true) [wd1, wd2, wd3] wst0).committed
        = wst0.committed ++ wst0.appended
            ++ List.takeWhile (fun d => decide (d ≠ wd2)) [wd1, wd2, wd3]
    ∧ (write_batch (fun d => decide (d ≠ wd2)) (fun _ => true) [wd1, wd2, wd3] wst0).retryCount
        = 0 :=
  (c3_writer_retry (fun d => decide (d ≠ wd2)) (fun _ => true) [wd1, wd2, wd3] wst0
    rfl rfl).1 rfl

/-! ## Claim C9: rejected queries -/

/-- C9: search leaves the index state unchanged on every code path, and a
query the parser rejects (unbalanced quotes make quotesBalanced false)
produces the BadQuery error. -/
theorem c9_badquery_no_mutation (scorer : Document → Option Nat)
    (st : IndexState) (q : String) :
    (search scorer st q).2 = st
    ∧ (quotesBalanced q = false →
        (search scorer st q).1 = Except.error SearchError.badQuery) := by
  unfold search
  by_cases h : quotesBalanced q = true
  · simp [h]
  · simp at h
    simp [h]

/-- C9 witness: the query foo"bar has an unbalanced quote, is rejected as
BadQuery, and the index state passes through unchanged. -/
theorem c9_witness :
    (search (fun _ => some 1) (IndexState.mk []) ("foo\"bar")).2 = IndexState.mk []
    ∧ (search (fun _ => some 1) (IndexState.mk []) ("foo\"bar")).1
        = Except.error SearchError.badQuery :=
  ⟨(c9_badquery_no_mutation (fun _ => some 1) (IndexState.mk []) ("foo\"bar")).1,
   (c9_badquery_no_mutation (fun _ => some 1) (IndexState.mk []) ("foo\"bar")).2
     (by decide)⟩

/-! ## Claim C8: projection of a hit -/

/-- Concrete stored document of size 1024 bytes. -/
def docKB : Document :=
  [(Field.path, "/k/file"), (Field.name, "file"), (Field.size, "1024")]

/-- C8 counterexample: the hit projected from a stored document of size
1024 is formatted as 1.00 KB - the source format_size uses the unit
strings B, KB, MB, GB, TB (mod.rs lines 822-831), never the claimed
KiB/MiB/GiB/TiB spellings (and the pure-byte branch prints no decimals at
all). -/
theorem c8_counterexample :
    (projectHit docKB).map (fun h => h.size_formatted) = Except.ok ("1.00 KB")
    ∧ ¬ ("KiB".toList <:+: ("1.00 KB").toList) := by
  refine ⟨rfl, by decide⟩

theorem format_size_shape (s : Nat) :
    (s < 1024 → format_size s = toString s ++ " B")
    ∧ (1024 ≤ s → ∃ a b u, format_size s = a ++ "." ++ b ++ u
        ∧ b.length = 2
        ∧ (u = " KB" ∨ u = " MB" ∨ u = " GB" ∨ u = " TB")) := by
  constructor
  · intro hlt
    simp only [format_size]
    rw [if_neg (by omega), if_neg (by omega), if_neg (by omega), if_neg (by omega)]
  · intro hge
    simp only [format_size, twoDec]
    by_cases hTB : 1024 * 1024 * 1024 * 1024 ≤ s
    · rw [if_pos hTB]
      exact ⟨_, _, " TB", rfl, rfl, by simp⟩
    · rw [if_neg hTB]
      by_cases hGB : 1024 * 1024 * 1024 ≤ s
      · rw [if_pos hGB]
        exact ⟨_, _, " GB", rfl, rfl, by simp⟩
      · rw [if_neg hGB]
        by_cases hMB : 1024 * 1024 ≤ s
        · rw [if_pos hMB]
          exact ⟨_, _, " MB", rfl, rfl, by simp⟩
        · rw [if_neg hMB]
          rw [if_pos hge]
          exact ⟨_, _, " KB", rfl, rfl, by simp⟩

/-- C8 amended: every projected hit has size parsed from the stored
decimal string (0 when absent or unparsable), size_formatted produced by
format_size - which renders sizes below 1024 as a plain integer with unit
B and larger sizes with exactly two decimal digits and one of the units
KB, MB, GB, TB at binary thresholds (not the claimed KiB/MiB/GiB/TiB) -
modified_formatted always the Unknown placeholder, and is_dir true
exactly when the stored mime_type is absent or empty. -/
theorem c8_projection (d : Document) (hit : SearchDoc)
    (h : projectHit d = Except.ok hit) :
    hit.size = ((getFirst d Field.size).bind parseU64).getD 0
    ∧ hit.size_formatted = format_size hit.size
    ∧ hit.modified_formatted = "Unknown"
    ∧ hit.is_dir = ((getFirst d Field.mime_type).getD "").isEmpty
    ∧ (hit.size < 1024 → hit.size_formatted = toString hit.size ++ " B")
    ∧ (1024 ≤ hit.size → ∃ a b u, hit.size_formatted = a ++ "." ++ b ++ u
        ∧ b.length = 2
        ∧ (u = " KB" ∨ u = " MB" ∨ u = " GB" ∨ u = " TB")) := by
  unfold projectHit at h
  rcases hp : getFirst d Field.path with _ | p
  · rw [hp] at h
    cases h
  · rw [hp] at h
    rcases hn : getFirst d Field.name with _ | n
    · rw [hn] at h
      cases h
    · rw [hn] at h
      simp only [Except.ok.injEq] at h
      subst h
      refine ⟨rfl, rfl, rfl, rfl, ?_, ?_⟩
      · exact (format_size_shape _).1
      · exact (format_size_shape _).2

/-- C8 witness: the amended projection facts at the concrete stored
document of size 1024. -/
theorem c8_witness :
    ∃ hit, projectHit docKB = Except.ok hit
      ∧ hit.size = 1024
      ∧ hit.size_formatted = format_size 1024
      ∧ hit.modified_formatted = "Unknown"
      ∧ hit.is_dir = true := by
  refine ⟨_, rfl, ?_⟩
  have h := c8_projection docKB _ rfl
  exact ⟨by rfl, by rfl, h.2.2.1, by rfl⟩

/-! ## Claim C5: result bound and empty result -/

theorem mapExcept_ok_length {α β ε : Type} (f : α → Except ε β) (l : List α)
    (ys : List β) (h : mapExcept f l = Except.ok ys) : ys.length = l.length := by
  induction l generalizing ys with
  | nil =>
    simp [mapExcept] at h
    simp [← h]
  | cons a l ih =>
    rcases hf : f a with e | b
    · simp [mapExcept, hf] at h
    · rcases hm : mapExcept f l with e | bs
      · simp [mapExcept, hf, hm] at h
      · simp [mapExcept, hf, hm] at h
        simp [← h, ih bs hm]

theorem scoredFrom_nil_of_none (scorer : Document → Option Nat)
    (docs : List Document) (hz : ∀ d ∈ docs, scorer d = none) :
    ∀ i, scoredFrom scorer i docs = [] := by
  induction docs with
  | nil => intro i; rfl
  | cons d ds ih =>
    intro i
    have hd := hz d (by simp)
    simp [scoredFrom, hd]
    exact ih (fun x hx => hz x (by simp [hx])) (i + 1)

/-- C5: whenever search returns a hit list it has at most 100 elements,
and a parser-accepted query that matches no document returns the empty
list, not an error. -/
theorem c5_limit_and_empty (scorer : Document → Option Nat) (st : IndexState)
    (q : String) :
    (∀ hits, (search scorer st q).1 = Except.ok hits → hits.length ≤ 100)
    ∧ (quotesBalanced q = true → (∀ d ∈ st.docs, scorer d = none) →
        (search scorer st q).1 = Except.ok []) := by
  constructor
  · intro hits h
    by_cases hq : quotesBalanced q = true
    · rw [search, if_pos hq] at h
      have hlen := mapExcept_ok_length _ _ _ h
      rw [hlen, rankedHits]
      exact List.length_take_le _ _
    · rw [search, if_neg hq] at h
      cases h
  · intro hq hz
    rw [search, if_pos hq]
    unfold search_exec rankedHits
    rw [scoredFrom_nil_of_none scorer st.docs hz 0]
    rfl

/-- C5 witness: a balanced query over an index whose single document the
query does not match returns the empty list. -/
theorem c5_witness :
    (search (fun _ => none) (IndexState.mk [docKB]) ("hello")).1
      = Except.ok [] :=
  (c5_limit_and_empty (fun _ => none) (IndexState.mk [docKB]) ("hello")).2
    (by decide) (fun d _ => rfl)

/-! ## Claim C10: per-hit error policy -/

theorem mapExcept_error_of_mem {α β ε : Type} (f : α → Except ε β)
    (l : List α) (x : α) (hx : x ∈ l) (e : ε) (hf : f x = Except.error e) :
    ∃ e2, mapExcept f l = Except.error e2 := by
  induction l with
  | nil => cases hx
  | cons a l ih =>
    rcases hf2 : f a with e3 | b
    · exact ⟨e3, by simp [mapExcept, hf2]⟩
    · rcases List.mem_cons.mp hx with heq | hmem
      · subst heq
        rw [hf] at hf2
        cases hf2
      · obtain ⟨e2, he2⟩ := ih hmem
        exact ⟨e2, by simp [mapExcept, hf2, he2]⟩

theorem projectHit_error_of_missing (d : Document)
    (hmiss : getFirst d Field.path = none ∨ getFirst d Field.name = none) :
    ∃ e, projectHit d = Except.error e := by
  unfold projectHit
  rcases hp : getFirst d Field.path with _ | p
  · exact ⟨SearchError.missingPath, rfl⟩
  · rcases hmiss with hmp | hmn
    · rw [hp] at hmp
      cases hmp
    · rw [hmn]
      exact ⟨SearchError.missingName, rfl⟩

/-- C10: if any collected hit's stored document lacks the path field or
the name field the entire search call returns an error (no hit is
skipped), whereas a document with path and name whose size field is
missing or unparsable projects successfully with size 0. -/
theorem c10_error_policy (scorer : Document → Option Nat) (st : IndexState)
    (q : String) (s : Scored)
    (hmem : s ∈ rankedHits scorer st.docs)
    (hmiss : getFirst s.doc Field.path = none ∨ getFirst s.doc Field.name = none)
    (hq : quotesBalanced q = true) :
    (∃ e, (search scorer st q).1 = Except.error e)
    ∧ (∀ d p n, getFirst d Field.path = some p → getFirst d Field.name = some n →
        (getFirst d Field.size).bind parseU64 = none →
        ∃ hit, projectHit d = Except.ok hit ∧ hit.size = 0) := by
  constructor
  · obtain ⟨e, he⟩ := projectHit_error_of_missing s.doc hmiss
    obtain ⟨e2, he2⟩ :=
      mapExcept_error_of_mem (fun s => projectHit s.doc) _ s hmem e he
    exact ⟨e2, by rw [search, if_pos hq]; exact he2⟩
  · intro d p n hp hn hsz
    refine ⟨{ path := p, name := n, size := 0,
              size_formatted := format_size 0,
              modified_formatted := "Unknown",
              mime_type := (getFirst d Field.mime_type).getD "",
              is_dir := ((getFirst d Field.mime_type).getD "").isEmpty },
        ?_, rfl⟩
    unfold projectHit
    rw [hp, hn]
    simp [hsz]

/-- Stored document lacking a name field, used for the C10 witness. -/
def docNoName : Document := [(Field.path, "/n/anon"), (Field.size, "abc")]

/-- C10 witness: searching an index whose single matching document lacks
the name field returns an error for the whole call. -/
theorem c10_witness :
    ∃ e, (search (fun _ => some 1) (IndexState.mk [docNoName]) ("x")).1
      = Except.error e :=
  (c10_error_policy (fun _ => some 1) (IndexState.mk [docNoName]) ("x")
    { score := 1, idx := 0, doc := docNoName }
    (by decide) (Or.inr (by decide)) (by decide)).1

/-! ## Claim C6: determinism and tie-breaking -/

theorem mem_insertScored (x z : Scored) (l : List Scored)
    (h : z ∈ insertScored x l) : z = x ∨ z ∈ l := by
  induction l with
  | nil =>
    simp [insertScored] at h
    exact Or.inl h
  | cons y ys ih =>
    by_cases hxy : y.score < x.score
    · rw [insertScored, if_pos hxy] at h
      rcases List.mem_cons.mp h with h1 | h2
      · exact Or.inl h1
      · exact Or.inr h2
    · rw [insertScored, if_neg hxy] at h
      rcases List.mem_cons.mp h with h1 | h2
      · exact Or.inr (by simp [h1])
      · rcases ih h2 with h3 | h4
        · exact Or.inl h3
        · exact Or.inr (by simp [h4])

theorem pairwise_insertScored (x : Scored) (l : List Scored)
    (hl : l.Pairwise hitOrder) (hidx : ∀ y ∈ l, y.idx < x.idx) :
    (insertScored x l).Pairwise hitOrder := by
  induction l with
  | nil => simp [insertScored]
  | cons y ys ih =>
    rcases List.pairwise_cons.mp hl with ⟨hy, hys⟩
    by_cases hxy : y.score < x.score
    · rw [insertScored, if_pos hxy]
      refine List.pairwise_cons.mpr ⟨?_, hl⟩
      intro z hz
      rcases List.mem_cons.mp hz with h1 | h2
      · subst h1
        exact Or.inl hxy
      · rcases hy z h2 with h3 | h4
        · exact Or.inl (lt_trans h3 hxy)
        · exact Or.inl (h4.1 ▸ hxy)
    · rw [insertScored, if_neg hxy]
      refine List.pairwise_cons.mpr ⟨?_, ?_⟩
      · intro z hz
        rcases mem_insertScored x z ys hz with h1 | h2
        · subst h1
          by_cases hlt : z.score < y.score
          · exact Or.inl hlt
          · have heq : y.score = z.score := by omega
            exact Or.inr ⟨heq, hidx y (by simp)⟩
        · exact hy z h2
      · exact ih hys (fun y2 hy2 => hidx y2 (by simp [hy2]))

theorem pairwise_sort_fold (l acc : List Scored)
    (hacc : acc.Pairwise hitOrder)
    (hsep : ∀ y ∈ acc, ∀ z ∈ l, y.idx < z.idx)
    (hl : l.Pairwise (fun a b => a.idx < b.idx)) :
    (l.foldl (fun acc x => insertScored x acc) acc).Pairwise hitOrder := by
  induction l generalizing acc with
  | nil => exact hacc
  | cons x xs ih =>
    rcases List.pairwise_cons.mp hl with ⟨hx, hxs⟩
    simp only [List.foldl_cons]
    refine ih (insertScored x acc) ?_ ?_ hxs
    · exact pairwise_insertScored x acc hacc
        (fun y hy => hsep y hy x (by simp))
    · intro y hy z hz
      rcases mem_insertScored x y acc hy with h1 | h2
      · subst h1
        exact hx z hz
      · exact hsep y h2 z (by simp [hz])

theorem scoredFrom_idx_ge (scorer : Document → Option Nat) :
    ∀ (ds : List Document) (i : Nat), ∀ x ∈ scoredFrom scorer i ds, i ≤ x.idx := by
  intro ds
  induction ds with
  | nil => intro i x hx; cases hx
  | cons d ds ih =>
    intro i x hx
    rcases hs : scorer d with _ | sc
    · rw [scoredFrom, hs] at hx
      exact le_trans (by omega) (ih (i + 1) x hx)
    · rw [scoredFrom, hs] at hx
      rcases List.mem_cons.mp hx with h1 | h2
      · simp [h1]
      · exact le_trans (by omega) (ih (i + 1) x h2)

theorem scoredFrom_idx_pairwise (scorer : Document → Option Nat) :
    ∀ (ds : List Document) (i : Nat),
      (scoredFrom scorer i ds).Pairwise (fun a b => a.idx < b.idx) := by
  intro ds
  induction ds with
  | nil => intro i; simp [scoredFrom]
  | cons d ds ih =>
    intro i
    rcases hs : scorer d with _ | sc
    · rw [scoredFrom, hs]
      exact ih (i + 1)
    · rw [scoredFrom, hs]
      refine List.pairwise_cons.mpr ⟨?_, ih (i + 1)⟩
      intro z hz
      have := scoredFrom_idx_ge scorer ds (i + 1) z hz
      simp
      omega

theorem pairwise_rankedHits (scorer : Document → Option Nat)
    (docs : List Document) : (rankedHits scorer docs).Pairwise hitOrder := by
  unfold rankedHits sortByScore
  refine List.Pairwise.sublist (List.take_sublist _ _) ?_
  exact pairwise_sort_fold (scoredFrom scorer 0 docs) []
    (by simp) (by simp) (scoredFrom_idx_pairwise scorer docs 0)

/-- C6: two executions of the same query against the same committed index
state return identical results (search reads only from the index state and
the query), and the collected hit sequence is strictly ordered by
descending score with score ties broken by ascending intrinsic document
order, so the element order is fully determined. -/
theorem c6_deterministic_tiebreak (scorer : Document → Option Nat)
    (st : IndexState) (q : String)
    (r1 r2 : Except SearchError (List SearchDoc) × IndexState)
    (h1 : r1 = search scorer st q) (h2 : r2 = search scorer st q) :
    r1 = r2 ∧ (rankedHits scorer st.docs).Pairwise hitOrder := by
  constructor
  · rw [h1, h2]
  · exact pairwise_rankedHits scorer st.docs

/-- C6 witness: determinism and collector ordering at a concrete index
and query. -/
theorem c6_witness :
    search (fun _ => some 1) (IndexState.mk [docKB]) ("file")
      = search (fun _ => some 1) (IndexState.mk [docKB]) ("file")
    ∧ (rankedHits (fun _ => some 1) [docKB]).Pairwise hitOrder :=
  c6_deterministic_tiebreak (fun _ => some 1) (IndexState.mk [docKB]) ("file")
    _ _ rfl rfl

end Constella
